import Mathlib

/-!
Shallow embedding of SkySync, a dynamic-DNS reconciliation agent
(Rust sources: src/main.rs, src/services/cloudflare/service.rs,
src/services/discord/webhooks.rs).

The reconciliation loop in `main` is embedded as a pure function
`runTick` from the cross-tick state (`last_public_ip`) and the tick's
external inputs (resolver response, Cloudflare list/update responses,
webhook delivery outcome) to a `TickOutcome` recording the new state,
the observable effects (log appends, notifications, DNS queries, update
calls) and whether the tick panicked.  Panics (`expect`, `unwrap`,
`panic!`, out-of-bounds indexing) are modelled as a `panicked` field
carrying the panic message; a panic inside the spawned Tokio task kills
the task, so `runLoop` stops at the first panicking tick.

`write_log` in main.rs opens the log file with
`OpenOptions::new().write(true)` (no append flag); its file-level
semantics are embedded separately as `write_log_contents`.
-/

namespace SkySync

/-- Embeds `DnsType` from src/services/cloudflare/service.rs. -/
inductive DnsType
  | A
  | AAAA
  | CNAME
  | HTTPS
  | TXT
  | SRV
deriving DecidableEq

/-- Embeds `ResultInfo` from src/services/cloudflare/service.rs. -/
structure ResultInfo where
  page : Int
  per_page : Int
  count : Int
  total_count : Int
  total_pages : Int
deriving DecidableEq

/-- Embeds `Meta` from src/services/cloudflare/service.rs. -/
structure Meta where
  auto_added : Bool
  managed_by_apps : Bool
  managed_by_argo_tunnel : Bool
deriving DecidableEq

/-- Embeds `Struct` (one DNS record) from src/services/cloudflare/service.rs. -/
structure Struct where
  id : String
  zone_id : String
  zone_name : String
  name : String
  type' : String
  content : String
  proxiable : Bool
  proxied : Bool
  ttl : Int
  meta : Meta
  comment : Option String
  tags : List String
  created_on : String
  modified_on : String
  comment_modified_on : Option String
deriving DecidableEq

/-- Embeds `Root` (the response of `dns_records`) from src/services/cloudflare/service.rs. -/
structure Root where
  result : List Struct
  success : Bool
  errors : List String
  messages : List String
  result_info : ResultInfo
deriving DecidableEq

/-- Embeds `UpdateResponse` from src/services/cloudflare/service.rs: the
response of `update_dns_records`.  The `result` record is not inspected
by `main`, only `success` and `errors` are. -/
structure UpdateResponse where
  success : Bool
  errors : List String
  messages : List String
deriving DecidableEq

/-- The argument tuple of a call to `update_dns_records`
(src/main.rs lines 121-129). -/
structure UpdateCall where
  id : String
  dns_type : DnsType
  name : String
  content : String
  ttl : Int
  proxied : Bool
deriving DecidableEq

/-- One call to `send_webhook_message`
(src/services/discord/webhooks.rs): its `content` and `error`
arguments. -/
structure WebhookMessage where
  content : String
  error : Option Bool
deriving DecidableEq

/-- Configuration read from the environment (src/main.rs line 80). -/
structure Config where
  dns_name : String
deriving DecidableEq

/-- The external inputs one tick of the loop can consume: the body
returned by the resolver (or the panic message of `get_public_ip`), the
outcome of `dns_records(None)`, the outcome of `update_dns_records`
(when called), and whether `webhook.execute` succeeds (when called). -/
structure TickInput where
  start_msg : String
  resolve : Except String String
  dns_records_resp : Except String Root
  update_resp : Except String UpdateResponse
  notify_ok : Bool

/-- The observable effects of one tick: the messages passed to
`write_log`, the webhook messages attempted, the number of
`dns_records` calls, and the `update_dns_records` calls. -/
structure TickEffects where
  logAppends : List String
  webhooks : List WebhookMessage
  dnsQueries : Nat
  updates : List UpdateCall
deriving DecidableEq

/-- The result of one tick: the `last_public_ip` state after the tick,
its effects, and `some reason` when the tick panicked (killing the
spawned task). -/
structure TickOutcome where
  state : Option String
  effects : TickEffects
  panicked : Option String
deriving DecidableEq

/-- Embeds `data.replace("\n", "")` of src/main.rs line 83: Rust's
`str::replace` with the single-character pattern `"\n"` and empty
replacement removes every newline character from the string. -/
def replaceNewline (s : String) : String :=
  ⟨s.data.filter (fun c => c ≠ '\n')⟩

/-- The success-notification text of src/main.rs line 133. -/
def successMessage (dns_name : String) : String :=
  "O IP público do domínio " ++ dns_name ++ " foi atualizado com sucesso!"

/-- The failure-notification text of src/main.rs line 138, carrying one
provider error string. -/
def failureMessage (dns_name err : String) : String :=
  "Falha ao atualizar o IP público do domínio " ++ dns_name ++ "!\n\n```" ++ err ++ "```"

/-- One iteration of the loop body of `main` (src/main.rs lines
69-143), from the current `last_public_ip` and the tick's external
inputs. -/
def runTick (cfg : Config) (last_public_ip : Option String) (i : TickInput) : TickOutcome :=
  let msg := i.start_msg
  match i.resolve with
  | .error e =>
      { state := last_public_ip
        effects := { logAppends := [], webhooks := [], dnsQueries := 0, updates := [] }
        panicked := some e }
  | .ok body =>
    let my_public_ip := replaceNewline body
    match last_public_ip with
    | some last_ip =>
        let state' := if my_public_ip ≠ last_ip then some my_public_ip else some last_ip
        let msg := msg ++ "\nPublic IP has not changed: " ++ my_public_ip
        { state := state'
          effects := { logAppends := [msg], webhooks := [], dnsQueries := 0, updates := [] }
          panicked := none }
    | none =>
        let state' := some my_public_ip
        let msg := msg ++ "\nPublic IP has changed to: " ++ my_public_ip
        match i.dns_records_resp with
        | .error _ =>
            { state := state'
              effects := { logAppends := [], webhooks := [], dnsQueries := 1, updates := [] }
              panicked := some "Failed to fetch DNS records" }
        | .ok root =>
          match root.result.find? (fun x => x.name == cfg.dns_name) with
          | none =>
              { state := state'
                effects := { logAppends := [], webhooks := [], dnsQueries := 1, updates := [] }
                panicked := some "Failed to find DNS record" }
          | some record =>
            if record.content == my_public_ip then
              let msg := msg ++ "\nPublic IP is already up to date: " ++ my_public_ip
              { state := state'
                effects := { logAppends := [msg], webhooks := [], dnsQueries := 1, updates := [] }
                panicked := none }
            else
              let call : UpdateCall :=
                { id := record.id, dns_type := DnsType.A, name := cfg.dns_name
                  content := my_public_ip, ttl := 1, proxied := false }
              match i.update_resp with
              | .error e =>
                  { state := state'
                    effects := { logAppends := [], webhooks := [], dnsQueries := 1, updates := [call] }
                    panicked := some e }
              | .ok update =>
                if update.success then
                  let wm : WebhookMessage :=
                    { content := successMessage cfg.dns_name, error := some false }
                  if i.notify_ok then
                    { state := state'
                      effects := { logAppends := [msg], webhooks := [wm], dnsQueries := 1, updates := [call] }
                      panicked := none }
                  else
                    { state := state'
                      effects := { logAppends := [], webhooks := [wm], dnsQueries := 1, updates := [call] }
                      panicked := some "Could not execute webhook." }
                else
                  match update.errors with
                  | [] =>
                      { state := state'
                        effects := { logAppends := [], webhooks := [], dnsQueries := 1, updates := [call] }
                        panicked := some "index out of bounds: the len is 0 but the index is 0" }
                  | err :: _ =>
                    let wm : WebhookMessage :=
                      { content := failureMessage cfg.dns_name err, error := some true }
                    if i.notify_ok then
                      { state := state'
                        effects := { logAppends := [msg], webhooks := [wm], dnsQueries := 1, updates := [call] }
                        panicked := none }
                    else
                      { state := state'
                        effects := { logAppends := [], webhooks := [wm], dnsQueries := 1, updates := [call] }
                        panicked := some "Could not execute webhook." }

/-- The spawned loop task (src/main.rs lines 65-145): ticks run
strictly serially; a panicking tick kills the Tokio task, so no later
tick runs. -/
def runLoop (cfg : Config) (last_public_ip : Option String) : List TickInput → List TickOutcome
  | [] => []
  | i :: rest =>
    let o := runTick cfg last_public_ip i
    o :: (if o.panicked.isSome then [] else runLoop cfg o.state rest)

/-- The observed IP a tick works with, when the resolver call
succeeds: the response body with every newline removed
(src/main.rs line 83). -/
def observedIp (i : TickInput) : Option String :=
  match i.resolve with
  | .ok body => some (replaceNewline body)
  | .error _ => none

end SkySync

namespace SkySync

/-- Fixture: a `Meta` value for concrete test records. -/
def sampleMeta : Meta :=
  { auto_added := false, managed_by_apps := false, managed_by_argo_tunnel := false }

/-- Fixture: a `ResultInfo` value for concrete test responses. -/
def sampleInfo : ResultInfo :=
  { page := 1, per_page := 20, count := 1, total_count := 1, total_pages := 1 }

/-- Fixture: a DNS record with the given id, name and content. -/
def mkRecord (id name content : String) : Struct :=
  { id := id, zone_id := "z1", zone_name := "zn", name := name, type' := "A"
    content := content, proxiable := true, proxied := false, ttl := 1
    meta := sampleMeta, comment := none, tags := [], created_on := "c"
    modified_on := "m", comment_modified_on := none }

/-- Fixture: a `dns_records` response listing the given records. -/
def mkRoot (records : List Struct) : Root :=
  { result := records, success := true, errors := [], messages := []
    result_info := sampleInfo }

end SkySync

namespace SkySync

/-- C1: the spec claims that a tick whose observed IP differs from a set
`LastKnownIP` updates `LastKnownIP` and proceeds to the Reconcile phase
(provider record query).  The code instead updates the stored IP, logs
"Public IP has not changed", performs no DNS query and no update call,
and ends the tick: with `LastKnownIP = "1.2.3.4"` and observed IP
"5.6.7.8" the tick ends with zero `dns_records` queries even though the
provider record still holds the stale address and the update would have
succeeded. -/
theorem c1_changed_ip_never_reconciled :
    runTick { dns_name := "example.com" } (some "1.2.3.4")
      { start_msg := "t", resolve := .ok "5.6.7.8\n"
        dns_records_resp := .ok (mkRoot [mkRecord "r1" "example.com" "1.2.3.4"])
        update_resp := .ok { success := true, errors := [], messages := [] }
        notify_ok := true } =
      { state := some "5.6.7.8"
        effects := { logAppends := ["t\nPublic IP has not changed: 5.6.7.8"]
                     webhooks := [], dnsQueries := 0, updates := [] }
        panicked := none } := by
  decide

/-- C2: on a tick whose `last_public_ip` is unset and whose resolver
call succeeds, the observed IP is unconditionally treated as changed:
the state is set to the observed IP and the `dns_records` provider
lookup is performed, whatever the provider then answers. -/
theorem c2_first_tick_unconditionally_changed (cfg : Config) (i : TickInput)
    (body : String) (hres : i.resolve = Except.ok body) :
    (runTick cfg none i).state = some (replaceNewline body) ∧
    (runTick cfg none i).effects.dnsQueries = 1 := by
  obtain ⟨sm, res, dr, ur, no⟩ := i
  dsimp only at hres
  subst hres
  unfold runTick
  rcases dr with e | root
  · exact ⟨rfl, rfl⟩
  · dsimp only
    rcases hf : root.result.find? (fun x => x.name == cfg.dns_name) with _ | rec
    · simp [hf]
    · simp only [hf]
      repeat' split
      all_goals exact ⟨rfl, rfl⟩

/-- C2 witness: a concrete first tick with observed IP "5.6.7.8" and a
failing provider lookup still sets the state and performs the lookup. -/
theorem c2_witness :
    (runTick { dns_name := "example.com" } none
      { start_msg := "t", resolve := .ok "5.6.7.8\n"
        dns_records_resp := .error "net", update_resp := .error "unused"
        notify_ok := true }).state = some (replaceNewline "5.6.7.8\n") ∧
    (runTick { dns_name := "example.com" } none
      { start_msg := "t", resolve := .ok "5.6.7.8\n"
        dns_records_resp := .error "net", update_resp := .error "unused"
        notify_ok := true }).effects.dnsQueries = 1 :=
  c2_first_tick_unconditionally_changed { dns_name := "example.com" } _ "5.6.7.8\n" rfl

/-- C3: a tick whose `last_public_ip` is set and equals the observed IP
is a no-op: no DNS query, no update call, no webhook, exactly the
"Public IP has not changed" log entry, the state is unchanged and the
tick ends without panicking. -/
theorem c3_unchanged_tick_is_noop (cfg : Config) (last_ip : String) (i : TickInput)
    (body : String) (hres : i.resolve = Except.ok body)
    (heq : replaceNewline body = last_ip) :
    runTick cfg (some last_ip) i =
      { state := some last_ip
        effects := { logAppends := [i.start_msg ++ "\nPublic IP has not changed: " ++ last_ip]
                     webhooks := [], dnsQueries := 0, updates := [] }
        panicked := none } := by
  obtain ⟨sm, res, dr, ur, no⟩ := i
  dsimp only at hres
  subst hres
  unfold runTick
  simp [heq]

/-- C3 witness: a concrete unchanged tick is a no-op. -/
theorem c3_witness :
    runTick { dns_name := "example.com" } (some "1.2.3.4")
      { start_msg := "t", resolve := .ok "1.2.3.4\n"
        dns_records_resp := .error "unused", update_resp := .error "unused"
        notify_ok := true } =
      { state := some "1.2.3.4"
        effects := { logAppends := ["t\nPublic IP has not changed: 1.2.3.4"]
                     webhooks := [], dnsQueries := 0, updates := [] }
        panicked := none } :=
  c3_unchanged_tick_is_noop { dns_name := "example.com" } "1.2.3.4" _ "1.2.3.4\n" rfl (by decide)

/-- C4: on a tick that reaches the Reconcile phase (state unset,
resolver and `dns_records` succeed, a record with the configured name
is found): if the record's content equals the observed IP, no update
call and no webhook occur, the "already up to date" narrative is
logged and the tick ends; otherwise `update_dns_records` is called
with exactly the record's id, record type `A`, the configured name,
the observed IP, TTL 1 and proxied=false. -/
theorem c4_reconcile_update_policy (cfg : Config) (i : TickInput) (body : String)
    (root : Root) (rec : Struct)
    (hres : i.resolve = Except.ok body)
    (hdr : i.dns_records_resp = Except.ok root)
    (hfind : root.result.find? (fun x => x.name == cfg.dns_name) = some rec) :
    (rec.content = replaceNewline body →
       (runTick cfg none i).effects.updates = [] ∧
       (runTick cfg none i).effects.webhooks = [] ∧
       (runTick cfg none i).effects.logAppends =
         [i.start_msg ++ "\nPublic IP has changed to: " ++ replaceNewline body ++
            "\nPublic IP is already up to date: " ++ replaceNewline body] ∧
       (runTick cfg none i).panicked = none) ∧
    (rec.content ≠ replaceNewline body →
       (runTick cfg none i).effects.updates =
         [{ id := rec.id, dns_type := DnsType.A, name := cfg.dns_name
            content := replaceNewline body, ttl := 1, proxied := false }]) := by
  obtain ⟨sm, res, dr, ur, no⟩ := i
  dsimp only at hres hdr
  subst hres
  subst hdr
  unfold runTick
  dsimp only
  simp only [hfind]
  constructor
  · intro hc
    have hb : (rec.content == replaceNewline body) = true := beq_iff_eq.mpr hc
    simp [hb, hc]
  · intro hc
    have hb : (rec.content == replaceNewline body) = false := by
      simpa using hc
    simp only [hb, if_false, Bool.false_eq_true]
    repeat' split
    all_goals rfl

/-- C4 witness: with an already-matching record no update call occurs;
the "already up to date" narrative is the sole log entry. -/
theorem c4_witness :
    (runTick { dns_name := "example.com" } none
      { start_msg := "t", resolve := .ok "1.2.3.4\n"
        dns_records_resp := .ok (mkRoot [mkRecord "r1" "example.com" "1.2.3.4"])
        update_resp := .error "unused", notify_ok := true }).effects.updates = [] ∧
    (runTick { dns_name := "example.com" } none
      { start_msg := "t", resolve := .ok "1.2.3.4\n"
        dns_records_resp := .ok (mkRoot [mkRecord "r1" "example.com" "1.2.3.4"])
        update_resp := .error "unused", notify_ok := true }).effects.webhooks = [] ∧
    (runTick { dns_name := "example.com" } none
      { start_msg := "t", resolve := .ok "1.2.3.4\n"
        dns_records_resp := .ok (mkRoot [mkRecord "r1" "example.com" "1.2.3.4"])
        update_resp := .error "unused", notify_ok := true }).effects.logAppends =
      [(({ start_msg := "t", resolve := .ok "1.2.3.4\n"
           dns_records_resp := .ok (mkRoot [mkRecord "r1" "example.com" "1.2.3.4"])
           update_resp := .error "unused", notify_ok := true } : TickInput)).start_msg ++
         "\nPublic IP has changed to: " ++ replaceNewline "1.2.3.4\n" ++
         "\nPublic IP is already up to date: " ++ replaceNewline "1.2.3.4\n"] ∧
    (runTick { dns_name := "example.com" } none
      { start_msg := "t", resolve := .ok "1.2.3.4\n"
        dns_records_resp := .ok (mkRoot [mkRecord "r1" "example.com" "1.2.3.4"])
        update_resp := .error "unused", notify_ok := true }).panicked = none :=
  (c4_reconcile_update_policy { dns_name := "example.com" } _ "1.2.3.4\n"
    (mkRoot [mkRecord "r1" "example.com" "1.2.3.4"])
    (mkRecord "r1" "example.com" "1.2.3.4") rfl rfl (by decide)).1 (by decide)

/-- C5: on a tick in which `update_dns_records` is called, a successful
outcome leads to exactly one `send_webhook_message` call with the
success text and error=Some(false); an unsuccessful outcome with at
least one provider error string leads to exactly one
`send_webhook_message` call with the failure text carrying the first
error string and error=Some(true). -/
theorem c5_update_notifications (cfg : Config) (i : TickInput) (body : String)
    (root : Root) (rec : Struct) (u : UpdateResponse)
    (hres : i.resolve = Except.ok body)
    (hdr : i.dns_records_resp = Except.ok root)
    (hfind : root.result.find? (fun x => x.name == cfg.dns_name) = some rec)
    (hneq : rec.content ≠ replaceNewline body)
    (hupd : i.update_resp = Except.ok u) :
    (u.success = true →
       (runTick cfg none i).effects.webhooks =
         [{ content := successMessage cfg.dns_name, error := some false }]) ∧
    (u.success = false → ∀ err tail, u.errors = err :: tail →
       (runTick cfg none i).effects.webhooks =
         [{ content := failureMessage cfg.dns_name err, error := some true }]) := by
  obtain ⟨sm, res, dr, ur, no⟩ := i
  dsimp only at hres hdr hupd
  subst hres
  subst hdr
  subst hupd
  have hb : (rec.content == replaceNewline body) = false := by
    simpa using hneq
  unfold runTick
  dsimp only
  simp only [hfind, hb, if_false, Bool.false_eq_true]
  constructor
  · intro hs
    simp only [hs, if_true]
    split <;> rfl
  · intro hs err tail herr
    simp only [hs, herr, Bool.false_eq_true, if_false]
    split <;> rfl

/-- C5 witness: a concrete failed update with errors ["rate limited"]
produces exactly one error webhook carrying "rate limited". -/
theorem c5_witness :
    (runTick { dns_name := "example.com" } none
      { start_msg := "t", resolve := .ok "5.6.7.8\n"
        dns_records_resp := .ok (mkRoot [mkRecord "r1" "example.com" "1.2.3.4"])
        update_resp := .ok { success := false, errors := ["rate limited"], messages := [] }
        notify_ok := true }).effects.webhooks =
      [{ content := failureMessage "example.com" "rate limited", error := some true }] :=
  (c5_update_notifications { dns_name := "example.com" } _ "5.6.7.8\n"
    (mkRoot [mkRecord "r1" "example.com" "1.2.3.4"])
    (mkRecord "r1" "example.com" "1.2.3.4")
    { success := false, errors := ["rate limited"], messages := [] }
    rfl rfl (by decide) (by decide) rfl).2 rfl "rate limited" [] rfl

/-- C10: on the update-failure path the code indexes
`update.errors[0]` without a guard: if the provider reports
success=false with at least one error string, the error webhook is
built from the first one and the tick completes when delivery
succeeds; if the errors list is empty, the indexing is out of bounds
and the tick panics, sending no webhook and writing no log entry. -/
theorem c10_unguarded_error_indexing (cfg : Config) (i : TickInput) (body : String)
    (root : Root) (rec : Struct) (u : UpdateResponse)
    (hres : i.resolve = Except.ok body)
    (hdr : i.dns_records_resp = Except.ok root)
    (hfind : root.result.find? (fun x => x.name == cfg.dns_name) = some rec)
    (hneq : rec.content ≠ replaceNewline body)
    (hupd : i.update_resp = Except.ok u)
    (hfail : u.success = false) :
    (u.errors = [] →
       (runTick cfg none i).panicked =
         some "index out of bounds: the len is 0 but the index is 0" ∧
       (runTick cfg none i).effects.webhooks = [] ∧
       (runTick cfg none i).effects.logAppends = []) ∧
    (∀ err tail, u.errors = err :: tail →
       (runTick cfg none i).effects.webhooks =
         [{ content := failureMessage cfg.dns_name err, error := some true }] ∧
       (i.notify_ok = true → (runTick cfg none i).panicked = none)) := by
  obtain ⟨sm, res, dr, ur, no⟩ := i
  dsimp only at hres hdr hupd ⊢
  subst hres
  subst hdr
  subst hupd
  have hb : (rec.content == replaceNewline body) = false := by
    simpa using hneq
  unfold runTick
  dsimp only
  simp only [hfind, hb, if_false, Bool.false_eq_true, hfail]
  constructor
  · intro herr
    simp [herr]
  · intro err tail herr
    simp only [herr]
    constructor
    · split <;> rfl
    · intro hno
      simp [hno]

/-- C10 witness: a concrete success=false outcome with an empty errors
list panics the tick with the out-of-bounds message and neither a
webhook nor a log entry is produced. -/
theorem c10_witness :
    (runTick { dns_name := "example.com" } none
      { start_msg := "t", resolve := .ok "5.6.7.8\n"
        dns_records_resp := .ok (mkRoot [mkRecord "r1" "example.com" "1.2.3.4"])
        update_resp := .ok { success := false, errors := [], messages := [] }
        notify_ok := true }).panicked =
      some "index out of bounds: the len is 0 but the index is 0" ∧
    (runTick { dns_name := "example.com" } none
      { start_msg := "t", resolve := .ok "5.6.7.8\n"
        dns_records_resp := .ok (mkRoot [mkRecord "r1" "example.com" "1.2.3.4"])
        update_resp := .ok { success := false, errors := [], messages := [] }
        notify_ok := true }).effects.webhooks = [] ∧
    (runTick { dns_name := "example.com" } none
      { start_msg := "t", resolve := .ok "5.6.7.8\n"
        dns_records_resp := .ok (mkRoot [mkRecord "r1" "example.com" "1.2.3.4"])
        update_resp := .ok { success := false, errors := [], messages := [] }
        notify_ok := true }).effects.logAppends = [] :=
  (c10_unguarded_error_indexing { dns_name := "example.com" } _ "5.6.7.8\n"
    (mkRoot [mkRecord "r1" "example.com" "1.2.3.4"])
    (mkRecord "r1" "example.com" "1.2.3.4")
    { success := false, errors := [], messages := [] }
    rfl rfl (by decide) (by decide) rfl rfl).1 rfl

/-- Every tick either panics having written no log entry, or completes
with exactly one log entry: the write_log call sites in the loop body
are each followed by `continue` and every panic site precedes the
final write_log. -/
lemma runTick_panic_or_single_log (cfg : Config) (st : Option String) (i : TickInput) :
    ((runTick cfg st i).panicked.isSome ∧ (runTick cfg st i).effects.logAppends = []) ∨
    ((runTick cfg st i).panicked = none ∧
      (runTick cfg st i).effects.logAppends.length = 1) := by
  obtain ⟨sm, res, dr, ur, no⟩ := i
  rcases res with e | body
  · left
    exact ⟨rfl, rfl⟩
  · rcases st with _ | last
    · rcases dr with e | root
      · left
        exact ⟨rfl, rfl⟩
      · rcases hf : root.result.find? (fun x => x.name == cfg.dns_name) with _ | rec
        · left
          constructor <;> simp [runTick, hf]
        · by_cases hc : (rec.content == replaceNewline body) = true
          · right
            constructor <;> simp [runTick, hf, hc]
          · rcases ur with e | u
            · left
              constructor <;> simp [runTick, hf, hc]
            · by_cases hs : u.success = true
              · by_cases hn : no = true
                · right
                  constructor <;> simp [runTick, hf, hc, hs, hn]
                · left
                  constructor <;> simp [runTick, hf, hc, hs, hn]
              · rcases he : u.errors with _ | ⟨err, tail⟩
                · left
                  constructor <;> simp [runTick, hf, hc, hs, he]
                · by_cases hn : no = true
                  · right
                    constructor <;> simp [runTick, hf, hc, hs, he, hn]
                  · left
                    constructor <;> simp [runTick, hf, hc, hs, he, hn]
    · right
      constructor <;> simp [runTick]

/-- C6 counterexample: a tick whose resolver call fails writes no log
entry and kills the loop task: with two scheduled ticks, the second
never runs, refuting "the error is logged and the loop re-arms for the
next interval". -/
theorem c6_counterexample :
    (runTick { dns_name := "example.com" } none
      { start_msg := "t1", resolve := .error "Failed to send request"
        dns_records_resp := .error "net", update_resp := .error "unused"
        notify_ok := true }).effects.logAppends = [] ∧
    (runLoop { dns_name := "example.com" } none
      [{ start_msg := "t1", resolve := .error "Failed to send request"
         dns_records_resp := .error "net", update_resp := .error "unused"
         notify_ok := true },
       { start_msg := "t2", resolve := .ok "1.2.3.4"
         dns_records_resp := .error "net", update_resp := .error "unused"
         notify_ok := true }]).length = 1 := by
  decide

/-- C6 amended: a failing resolver call panics the tick with the
resolver's panic message, and any panicking tick (resolver failure,
provider transport failure, record not found, empty-errors indexing or
webhook delivery failure) writes no log entry and terminates the loop
task: no subsequent scheduled tick runs. -/
theorem c6_amended_errors_kill_loop (cfg : Config) (st : Option String)
    (i : TickInput) (rest : List TickInput) :
    (∀ e, i.resolve = Except.error e → (runTick cfg st i).panicked = some e) ∧
    ((runTick cfg st i).panicked.isSome →
       (runTick cfg st i).effects.logAppends = [] ∧
       runLoop cfg st (i :: rest) = [runTick cfg st i]) := by
  constructor
  · intro e he
    obtain ⟨sm, res, dr, ur, no⟩ := i
    dsimp only at he
    subst he
    rfl
  · intro hp
    refine ⟨?_, ?_⟩
    · rcases runTick_panic_or_single_log cfg st i with ⟨_, hlog⟩ | ⟨hnone, _⟩
      · exact hlog
      · rw [hnone] at hp
        simp at hp
    · simp [runLoop, hp]

/-- C6 witness: at a concrete resolver-failure tick, the panic carries
the resolver's message, no log entry is written, and the second
scheduled tick never runs. -/
theorem c6_witness :
    (runTick { dns_name := "example.com" } (some "1.2.3.4")
      { start_msg := "t1", resolve := .error "Failed to get response"
        dns_records_resp := .error "net", update_resp := .error "unused"
        notify_ok := true }).panicked = some "Failed to get response" ∧
    ((runTick { dns_name := "example.com" } (some "1.2.3.4")
      { start_msg := "t1", resolve := .error "Failed to get response"
        dns_records_resp := .error "net", update_resp := .error "unused"
        notify_ok := true }).effects.logAppends = [] ∧
     runLoop { dns_name := "example.com" } (some "1.2.3.4")
       [{ start_msg := "t1", resolve := .error "Failed to get response"
          dns_records_resp := .error "net", update_resp := .error "unused"
          notify_ok := true },
        { start_msg := "t2", resolve := .ok "1.2.3.4"
          dns_records_resp := .error "net", update_resp := .error "unused"
          notify_ok := true }] =
       [runTick { dns_name := "example.com" } (some "1.2.3.4")
         { start_msg := "t1", resolve := .error "Failed to get response"
           dns_records_resp := .error "net", update_resp := .error "unused"
           notify_ok := true }]) :=
  ⟨(c6_amended_errors_kill_loop { dns_name := "example.com" } (some "1.2.3.4") _
      [{ start_msg := "t2", resolve := .ok "1.2.3.4"
         dns_records_resp := .error "net", update_resp := .error "unused"
         notify_ok := true }]).1 "Failed to get response" rfl,
   (c6_amended_errors_kill_loop { dns_name := "example.com" } (some "1.2.3.4") _
      [{ start_msg := "t2", resolve := .ok "1.2.3.4"
         dns_records_resp := .error "net", update_resp := .error "unused"
         notify_ok := true }]).2 rfl⟩

/-- C7: the `last_public_ip` state is never cleared once set, and it
changes only on a tick whose observed IP differs from the stored value
or on a tick where it is still unset. -/
theorem c7_last_known_ip_invariant (cfg : Config) (st : Option String) (i : TickInput) :
    (st.isSome → ((runTick cfg st i).state).isSome) ∧
    ((runTick cfg st i).state ≠ st →
       st = none ∨ ∃ last obs, st = some last ∧ observedIp i = some obs ∧ obs ≠ last) := by
  obtain ⟨sm, res, dr, ur, no⟩ := i
  constructor
  · intro hs
    rcases st with _ | last
    · simp at hs
    · rcases res with e | body
      · simp [runTick]
      · unfold runTick
        dsimp only
        split <;> simp
  · intro hne
    rcases st with _ | last
    · exact Or.inl rfl
    · rcases res with e | body
      · exact absurd rfl hne
      · right
        refine ⟨last, replaceNewline body, rfl, rfl, ?_⟩
        intro heq
        apply hne
        simp [runTick, heq]

/-- C7 witness: at a concrete tick with stored IP "1.2.3.4" the state
stays set. -/
theorem c7_witness :
    ((runTick { dns_name := "example.com" } (some "1.2.3.4")
      { start_msg := "t", resolve := .ok "5.6.7.8"
        dns_records_resp := .error "net", update_resp := .error "unused"
        notify_ok := true }).state).isSome :=
  (c7_last_known_ip_invariant { dns_name := "example.com" } (some "1.2.3.4")
    { start_msg := "t", resolve := .ok "5.6.7.8"
      dns_records_resp := .error "net", update_resp := .error "unused"
      notify_ok := true }).1 rfl

/-- C8 counterexample: a tick whose resolver call fails appends zero
log entries, refuting "every tick, including error-terminated ticks,
performs exactly one log append". -/
theorem c8_counterexample :
    ¬ ((runTick { dns_name := "example.com" } none
      { start_msg := "t1", resolve := .error "Failed to send request"
        dns_records_resp := .error "net", update_resp := .error "unused"
        notify_ok := true }).effects.logAppends.length = 1) := by
  decide

/-- C8 amended: every tick that completes without panicking performs
exactly one log append; an error-terminated (panicking) tick performs
none. -/
theorem c8_amended_one_log_per_completed_tick (cfg : Config) (st : Option String)
    (i : TickInput) (h : (runTick cfg st i).panicked = none) :
    (runTick cfg st i).effects.logAppends.length = 1 := by
  rcases runTick_panic_or_single_log cfg st i with ⟨hsome, _⟩ | ⟨_, hlen⟩
  · rw [h] at hsome
    simp at hsome
  · exact hlen

/-- C8 witness: a concrete completed (unchanged) tick appends exactly
one log entry. -/
theorem c8_witness :
    (runTick { dns_name := "example.com" } (some "1.2.3.4")
      { start_msg := "t", resolve := .ok "1.2.3.4"
        dns_records_resp := .error "net", update_resp := .error "unused"
        notify_ok := true }).effects.logAppends.length = 1 :=
  c8_amended_one_log_per_completed_tick { dns_name := "example.com" } (some "1.2.3.4")
    { start_msg := "t", resolve := .ok "1.2.3.4"
      dns_records_resp := .error "net", update_resp := .error "unused"
      notify_ok := true } rfl

/-- The state of an opened file: its contents and the cursor
position. -/
structure OpenFile where
  contents : List Char
  pos : Nat
deriving DecidableEq

/-- Embeds `OpenOptions::new().write(true).open(&log_file)` of src/main.rs
lines 40-43: write mode without the append flag (and without truncate)
keeps the existing contents and places the cursor at the start of the
file. -/
def openWriteNoAppend (f : List Char) : OpenFile :=
  { contents := f, pos := 0 }

/-- Embeds `write_all(message.as_bytes())` on an open handle: overwrites the
bytes at the cursor position and advances the cursor. -/
def writeAll (h : OpenFile) (data : List Char) : OpenFile :=
  { contents := h.contents.take h.pos ++ data ++ h.contents.drop (h.pos + data.length)
    pos := h.pos + data.length }

/-- The file contents after `write_log` (src/main.rs lines 31-46) runs
on an existing log file currently holding `old`. -/
def write_log_contents (old message : List Char) : List Char :=
  (writeAll (openWriteNoAppend old) message).contents

/-- C9: `write_log` opens the log file in write mode without an append
flag, so the write starts at position 0 and overwrites the existing
bytes there: the resulting file is the message followed by whatever
old bytes extend past it, and prior content is not preserved — for any
non-empty old contents and non-empty message the result differs from
the appended file. -/
theorem c9_write_mode_overwrites (old message : List Char) :
    write_log_contents old message = message ++ old.drop message.length ∧
    (0 < old.length → 0 < message.length →
      write_log_contents old message ≠ old ++ message) := by
  constructor
  · simp [write_log_contents, writeAll, openWriteNoAppend]
  · intro ho hm heq
    have hlen := congrArg List.length heq
    simp [write_log_contents, writeAll, openWriteNoAppend] at hlen
    omega

/-- C9 witness: writing "x" over a file holding "AB" yields "xB", not
"ABx". -/
theorem c9_witness :
    write_log_contents ['A', 'B'] ['x'] = ['x'] ++ (['A', 'B'].drop 1) ∧
    write_log_contents ['A', 'B'] ['x'] ≠ ['A', 'B'] ++ ['x'] :=
  ⟨(c9_write_mode_overwrites ['A', 'B'] ['x']).1,
   (c9_write_mode_overwrites ['A', 'B'] ['x']).2 (by decide) (by decide)⟩

end SkySync
